import Mathlib

/-!
# EdOS — verification of the tenant-scoped RBAC and aggregation layer

Shallow embedding of the EdOS frontend source (route guard, attendance
page, API client interceptor, parent/student data-fetch paths and stat
displays) together with spec-modelled definitions of the backend
authorization guard and aggregation service, which are not part of the
frontend sources.  Numbers that the JavaScript code manipulates as
floating point are modelled as exact rationals `ℚ`; JS `null`/`undefined`
is modelled as `Option`.
-/

namespace EdOS

/-! ## Route guard (`App.js`: `ProtectedRoute`, `AppRoutes`) -/

/-- Possible render outcomes of `ProtectedRoute`. -/
inductive RenderOutcome
  | spinner
  | redirectLogin
  | redirectDashboard
  | page
  deriving DecidableEq, Repr

/-- `ProtectedRoute({children, allowedTypes})`: while auth state is
loading it renders a spinner; unauthenticated users are redirected to
`/login`; when an `allowedTypes` list is given and the `user_type` of
the user is not in it, it redirects to `/dashboard`; otherwise it
renders the guarded children.  The `user_type` of a missing user is
`undefined`, which is never a member of `allowedTypes`. -/
def ProtectedRoute (loading : Bool) (isAuthenticated : Bool)
    (userType : Option String) (allowedTypes : Option (List String)) :
    RenderOutcome :=
  if loading then .spinner
  else if !isAuthenticated then .redirectLogin
  else
    match allowedTypes with
    | some ts =>
      if !(match userType with | some t => ts.contains t | none => false) then
        .redirectDashboard
      else .page
    | none => .page

/-- The `allowedTypes` list used by the admin routes in `AppRoutes`. -/
def adminAllowedTypes : List String :=
  ["school_admin", "super_admin", "principal"]

/-- The admin-guarded routes of `AppRoutes`: each path together with the
`allowedTypes` list its `ProtectedRoute` wrapper receives. -/
def adminGuardedRoutes : List (String × List String) :=
  [("school-setup", adminAllowedTypes),
   ("users", adminAllowedTypes),
   ("classes", adminAllowedTypes),
   ("subjects", adminAllowedTypes)]

/-! ## Attendance page (`AttendancePage.jsx`) -/

/-- The `value` fields of the `ATTENDANCE_STATUSES` constant. -/
def ATTENDANCE_STATUSES : List String :=
  ["present", "absent", "late", "excused", "medical"]

/-- One row of the class-attendance response rendered by the page:
`student_id` plus the possibly-missing `status` of the fetched record
(JS `student.status` may be `null`/`undefined`). -/
structure ClassAttendanceRow where
  student_id : String
  status : Option String
  deriving DecidableEq, Repr

/-- `fetchAttendance`: the marking state is initialised from the fetched
rows by `records[student.student_id] = student.status || present`;
modelled as an association list in row order. -/
def initAttendanceRecords (rows : List ClassAttendanceRow) :
    List (String × String) :=
  rows.map (fun student => (student.student_id, student.status.getD "present"))

/-- One element of the `records` array sent by `handleSaveAttendance`. -/
structure MarkRecord where
  student_id : String
  status : String
  deriving DecidableEq, Repr

/-- `handleSaveAttendance`: `Object.entries(attendanceRecords).map(([studentId,
status]) => ({student_id: studentId, status}))` — the payload of the
`bulkMarkAttendance` call. -/
def saveAttendancePayload (attendanceRecords : List (String × String)) :
    List MarkRecord :=
  attendanceRecords.map (fun p => ⟨p.1, p.2⟩)

/-- The client-side `summary` object computed by `AttendancePage`:
`total` is the number of listed students (`attendanceData.length`) and
the four counts are over the values of the marking state
(`Object.values(attendanceRecords)`), with `excused` counting both
`excused` and `medical`. -/
structure ClientSummary where
  total : ℕ
  present : ℕ
  absent : ℕ
  late : ℕ
  excused : ℕ
  deriving DecidableEq, Repr

/-- The `summary` computation of `AttendancePage.jsx` (lines 167–174). -/
def clientSummary (attendanceData : List ClassAttendanceRow)
    (markingValues : List String) : ClientSummary where
  total := attendanceData.length
  present := (markingValues.filter (fun s => s = "present")).length
  absent := (markingValues.filter (fun s => s = "absent")).length
  late := (markingValues.filter (fun s => s = "late")).length
  excused := (markingValues.filter
    (fun s => ["excused", "medical"].contains s)).length

/-! ## Shared API client (`services/api.js`) -/

/-- The three auth-related `localStorage` entries the response
interceptor touches; `some` means the key is present. -/
structure AuthStorage where
  access_token : Option String
  refresh_token : Option String
  user : Option String
  deriving DecidableEq, Repr

/-- Outcome of one run of the response interceptor on a failed request:
re-issue the original request (whose `_retry` flag is now
`retryFlagSet`), reject the promise, or navigate to `/login`. -/
inductive InterceptOutcome
  | retryOriginal (retryFlagSet : Bool)
  | reject
  | redirectLogin
  deriving DecidableEq, Repr

/-- The response-error interceptor of `api.js` (lines 27–51): on a 401
whose request does not yet carry `_retry`, set `_retry`, and if a
refresh token is stored attempt the refresh (`refreshResult` is `some
newToken` when the refresh call succeeds).  On success store the new
access token and re-issue the original request; on refresh failure
remove `access_token`, `refresh_token` and `user` from storage and
navigate to `/login`.  All other errors, including a 401 on a request
already marked `_retry`, are rejected unchanged. -/
def responseInterceptor (status : ℕ) (retryFlag : Bool)
    (storage : AuthStorage) (refreshResult : Option String) :
    InterceptOutcome × AuthStorage :=
  if status = 401 ∧ retryFlag = false then
    match storage.refresh_token with
    | some _ =>
      match refreshResult with
      | some tok =>
        (.retryOriginal true, { storage with access_token := some tok })
      | none =>
        (.redirectLogin,
         { access_token := none, refresh_token := none, user := none })
    | none => (.reject, storage)
  else (.reject, storage)

/-! ## Parent and student read paths and stat displays -/

/-- A per-day record of the student-attendance response consumed by
`ChildrenPage`. -/
structure StudentAttendanceRecord where
  date : String
  status : String
  deriving DecidableEq, Repr

/-- Shape of `attendanceAPI.getStudentAttendance` response data:
`records` plus a `summary` whose `attendance_percentage` may be
absent (the catch default supplies `summary: \x7b\x7d`). -/
structure StudentAttendanceResponse where
  records : List StudentAttendanceRecord
  attendance_percentage : Option ℚ
  deriving DecidableEq, Repr

/-- Per-subject slice of a grades response. -/
structure SubjectGrades where
  subject_id : String
  average_percentage : Option ℚ
  deriving DecidableEq, Repr

/-- Shape of the grades response data: a `subjects` array. -/
structure StudentGradesResponse where
  subjects : List SubjectGrades
  deriving DecidableEq, Repr

/-- `fetchChildData` (`ChildrenPage.jsx` lines 54–71), attendance leg:
`attendanceAPI.getStudentAttendance(...).catch(() => (\x7bdata:
\x7brecords: [], summary: \x7b\x7d\x7d\x7d))` — a rejected fetch is
replaced by an empty response. -/
def fetchChildAttendance
    (result : Except String StudentAttendanceResponse) :
    Except String StudentAttendanceResponse :=
  match result with
  | .ok v => .ok v
  | .error _ => .ok ⟨[], none⟩

/-- `fetchChildData`, grades leg: `gradesAPI.getStudentGrades(studentId)
.catch(() => (\x7bdata: \x7bsubjects: []\x7d\x7d))`. -/
def fetchChildGrades (result : Except String StudentGradesResponse) :
    Except String StudentGradesResponse :=
  match result with
  | .ok v => .ok v
  | .error _ => .ok ⟨[]⟩

/-- `fetchData` (`StudentPortalPage` lines 29–42), grades leg:
`gradesAPI.getMyGrades().catch(() => (\x7bdata: \x7bsubjects:
[]\x7d\x7d))`. -/
def studentPortalFetchGrades (result : Except String StudentGradesResponse) :
    Except String StudentGradesResponse :=
  match result with
  | .ok v => .ok v
  | .error _ => .ok ⟨[]⟩

/-- What a dashboard statistic cell can render: a numeric value followed
by a percent sign, or a distinct no-data indication (the rendering the
spec requires for absent data; no code site produces it). -/
inductive StatDisplay
  | percentText (value : ℚ)
  | noData
  deriving DecidableEq, Repr

/-- `StudentPortalPage` line 94: the attendance cell renders
`\x7bdashboardData?.attendance?.percentage || 0\x7d%`. -/
def studentPortalAttendanceStat (percentage : Option ℚ) : StatDisplay :=
  .percentText (percentage.getD 0)

/-- `ChildrenPage.jsx` line 146: the attendance cell renders
`\x7battendanceData?.summary?.attendance_percentage || 0\x7d%`. -/
def parentChildrenAttendanceStat (attendance_percentage : Option ℚ) :
    StatDisplay :=
  .percentText (attendance_percentage.getD 0)

/-- `StudentDashboard` line 1114: the attendance-rate cell renders
`\x7bdata?.attendance?.percentage || 0\x7d%`. -/
def studentDashboardAttendanceStat (percentage : Option ℚ) : StatDisplay :=
  .percentText (percentage.getD 0)

/-! ## Spec-modelled backend components

The repository slice holds only the frontend; the backend service that
implements the Authorization Guard and the Aggregation Service behind
the `/api/...` endpoints is not among the sources, so the definitions
below are modelled from the spec (sections 4.1–4.3 and 6). -/

/-- Reason codes of the authorization error taxonomy (§7):
`CrossTenantAccess`, `ForbiddenAction`, `NotOwner`. -/
inductive DenyReason
  | crossTenant
  | forbiddenAction
  | notOwner
  deriving DecidableEq, Repr

/-- Decision returned by the Authorization Guard: `Allow | Deny(reason)`. -/
inductive Decision
  | allow
  | deny (reason : DenyReason)
  deriving DecidableEq, Repr

/-- Acting user as supplied by the authenticated-identity provider:
`(user_id, school_id, role)`. -/
structure ActingUser where
  user_id : String
  school_id : String
  role : String
  deriving DecidableEq, Repr

/-- Modelled from the spec: the Role-Permission Table (§4.1), a static
mapping `role → set of (resource, action)` pairs, pure data; held as a
list of `(role, resource, action)` triples. -/
abbrev RolePermissionTable := List (String × String × String)

/-- Modelled from the spec: the ownership-scoped roles of §4.2 step 3. -/
def ownershipScopedRoles : List String := ["parent", "student", "teacher"]

/-- Modelled from the spec: `authorize(user, action, resourceType,
resourceTenantId, ownershipCheck)` (§4.2, §6), the missing backend
Authorization Guard.  Step 1: deny `cross_tenant` when the target tenant
id differs from the tenant of the acting user, before any role logic.
Step 2: deny `forbidden_action` when the Role-Permission Table grants
the role no such action on the resource.  Step 3: for ownership-scoped
roles deny `not_owner` unless the ownership relation holds.  Step 4:
allow. -/
def authorize (table : RolePermissionTable) (user : ActingUser)
    (action resourceType : String) (resourceTenantId : String)
    (ownershipHolds : Bool) : Decision :=
  if user.school_id ≠ resourceTenantId then .deny .crossTenant
  else if table.contains (user.role, resourceType, action) = false then
    .deny .forbiddenAction
  else if ownershipScopedRoles.contains user.role ∧ ownershipHolds = false then
    .deny .notOwner
  else .allow

/-- An attendance record as the Aggregation Service consumes it: the day
it belongs to (an absolute day number) and its status. -/
structure SpecAttendanceRecord where
  day : ℕ
  status : String
  deriving DecidableEq, Repr

/-- Result shape of `summarizeAttendance`:
`\x7bpresent, absent, late, excused, percentage\x7d` (§6). -/
structure AttendanceSummary where
  present : ℕ
  absent : ℕ
  late : ℕ
  excused : ℕ
  percentage : ℚ
  deriving DecidableEq, Repr

/-- Rounding to one decimal place. -/
def roundTo1 (q : ℚ) : ℚ := (round (q * 10) : ℤ) / 10

/-- Modelled from the spec: `summarizeAttendance(records, start, end)`
(§4.3, §6), the missing backend attendance aggregation.  Counts per
status over the records inside `[start_date, end_date]` and computes
`attendance_percentage = present_count / total_marked_days * 100`
rounded to one decimal; days with no record are excluded from the
denominator, and the percentage is 0 (not an error) when
`total_marked_days = 0`. -/
def summarizeAttendance (records : List SpecAttendanceRecord)
    (start_date end_date : ℕ) : AttendanceSummary :=
  let marked := records.filter
    (fun r => start_date ≤ r.day ∧ r.day ≤ end_date)
  let total_marked_days := marked.length
  let present_count := (marked.filter (fun r => r.status = "present")).length
  { present := present_count
    absent := (marked.filter (fun r => r.status = "absent")).length
    late := (marked.filter (fun r => r.status = "late")).length
    excused := (marked.filter (fun r => r.status = "excused")).length
    percentage :=
      if total_marked_days = 0 then 0
      else roundTo1 ((present_count : ℚ) / total_marked_days * 100) }

/-- A graded assignment as the Aggregation Service consumes it:
`score`, `max_score` and the assignment weight. -/
structure GradeEntry where
  score : ℚ
  max_score : ℚ
  weight : ℚ
  deriving DecidableEq, Repr

/-- Modelled from the spec: `averageGrades(grades) → percentage | null`
(§4.3, §6), the missing backend grade aggregation.  Computes
`average_percentage = Σ(score_i / max_score_i * weight_i) / Σ(weight_i)
* 100` over the entries with `max_score ≠ 0`; entries with
`max_score = 0` are excluded from both sums, and the result is `none`
(not 0) when no valid graded assignment exists. -/
def averageGrades (grades : List GradeEntry) : Option ℚ :=
  let valid := grades.filter (fun g => g.max_score ≠ 0)
  if valid.length = 0 then none
  else
    some ((valid.map (fun g => g.score / g.max_score * g.weight)).sum /
      (valid.map (fun g => g.weight)).sum * 100)

end EdOS

/-- C2: an authenticated user whose `user_type` is not one of
`school_admin`, `super_admin`, `principal` is redirected to `/dashboard`
by the guard of each of the `school-setup`, `users`, `classes` and
`subjects` routes, and the guarded page is never rendered. -/
theorem C2_admin_routes_redirect (ut : String)
    (hut : ut ∉ EdOS.adminAllowedTypes) :
    ∀ r ∈ EdOS.adminGuardedRoutes,
      EdOS.ProtectedRoute false true (some ut) (some r.2) =
        EdOS.RenderOutcome.redirectDashboard ∧
      EdOS.ProtectedRoute false true (some ut) (some r.2) ≠
        EdOS.RenderOutcome.page := by
  intro r hr
  have hall : r.2 = EdOS.adminAllowedTypes := by
    simp only [EdOS.adminGuardedRoutes, List.mem_cons, List.not_mem_nil,
      or_false] at hr
    rcases hr with h | h | h | h <;> simp [h]
  constructor
  · simp only [EdOS.ProtectedRoute, hall]
    simp [hut]
  · simp only [EdOS.ProtectedRoute, hall]
    simp [hut]

/-- Witness for C2 at the concrete user type `teacher`. -/
theorem C2_admin_routes_redirect_witness :
    "teacher" ∉ EdOS.adminAllowedTypes ∧
      (EdOS.ProtectedRoute false true (some "teacher")
          (some EdOS.adminAllowedTypes) =
        EdOS.RenderOutcome.redirectDashboard ∧
      EdOS.ProtectedRoute false true (some "teacher")
          (some EdOS.adminAllowedTypes) ≠
        EdOS.RenderOutcome.page) := by
  refine ⟨by decide, ?_⟩
  exact C2_admin_routes_redirect "teacher" (by decide)
    ("school-setup", EdOS.adminAllowedTypes) (by simp [EdOS.adminGuardedRoutes])

/-! ### Attendance-page theorems -/

/-- Counting a fixed string by filtering equals `List.count`. -/
lemma length_filter_eq_count (a : String) (l : List String) :
    (l.filter (fun s => s = a)).length = l.count a := by
  induction l with
  | nil => rfl
  | cons b t ih =>
    by_cases h : b = a <;>
      simp [List.filter_cons, List.count_cons, h, ih]

/-- The `excused` filter of the client summary counts the `excused` and
`medical` records together. -/
lemma length_filter_excused (l : List String) :
    (l.filter (fun s => (["excused", "medical"]).contains s)).length =
      l.count "excused" + l.count "medical" := by
  induction l with
  | nil => rfl
  | cons b t ih =>
    by_cases h1 : b = "excused" <;> by_cases h2 : b = "medical"
    · exact absurd (h1 ▸ h2) (by decide)
    all_goals
      simp [List.filter_cons, List.count_cons, h1, h2] at ih ⊢
    all_goals omega

/-- C8: after `fetchAttendance`, every listed student whose fetched
record has no status is mapped to `present` in the marking state; and
when no fetched record has a status, saving without edits sends a
bulk-mark payload marking every listed student `present`. -/
theorem C8_default_present (rows : List EdOS.ClassAttendanceRow)
    (hall : ∀ r ∈ rows, r.status = none) :
    (∀ r ∈ rows, (r.student_id, "present") ∈ EdOS.initAttendanceRecords rows) ∧
    EdOS.saveAttendancePayload (EdOS.initAttendanceRecords rows) =
      rows.map (fun r => ⟨r.student_id, "present"⟩) := by
  constructor
  · intro r hr
    exact List.mem_map.mpr ⟨r, hr, by simp [hall r hr]⟩
  · simp only [EdOS.saveAttendancePayload, EdOS.initAttendanceRecords,
      List.map_map]
    exact List.map_congr_left (fun r hr => by simp [Function.comp, hall r hr])

/-- Witness for C8 on a concrete two-student class with no statuses. -/
theorem C8_default_present_witness :
    ((⟨"s1", none⟩ : EdOS.ClassAttendanceRow) ∈
        [(⟨"s1", none⟩ : EdOS.ClassAttendanceRow), ⟨"s2", none⟩] →
      ("s1", "present") ∈ EdOS.initAttendanceRecords
        [⟨"s1", none⟩, ⟨"s2", none⟩]) ∧
    EdOS.saveAttendancePayload (EdOS.initAttendanceRecords
        [⟨"s1", none⟩, ⟨"s2", none⟩]) =
      [⟨"s1", "present"⟩, ⟨"s2", "present"⟩] := by
  have h := C8_default_present [⟨"s1", none⟩, ⟨"s2", none⟩] (by decide)
  exact ⟨fun hm => h.1 _ hm, h.2⟩

/-- C10: when every marked status is drawn from `ATTENDANCE_STATUSES`,
the four displayed counts of the client summary partition the marking
records (medical falling under `excused`), and `total` is the number of
listed students. -/
theorem C10_summary_partition (attendanceData : List EdOS.ClassAttendanceRow)
    (marking : List String)
    (hvalid : ∀ s ∈ marking, s ∈ EdOS.ATTENDANCE_STATUSES) :
    (EdOS.clientSummary attendanceData marking).present +
      (EdOS.clientSummary attendanceData marking).absent +
      (EdOS.clientSummary attendanceData marking).late +
      (EdOS.clientSummary attendanceData marking).excused = marking.length ∧
    (EdOS.clientSummary attendanceData marking).total =
      attendanceData.length := by
  refine ⟨?_, rfl⟩
  simp only [EdOS.clientSummary]
  induction marking with
  | nil => rfl
  | cons s t ih =>
    have hs : s ∈ EdOS.ATTENDANCE_STATUSES := hvalid s (by simp)
    have ih' := ih (fun x hx => hvalid x (by simp [hx]))
    simp only [EdOS.ATTENDANCE_STATUSES, List.mem_cons, List.not_mem_nil,
      or_false] at hs
    rcases hs with rfl | rfl | rfl | rfl | rfl <;>
      simp [List.filter_cons] at ih' ⊢ <;> omega

/-- Witness for C10 on a concrete marking state covering every status. -/
theorem C10_summary_partition_witness :
    (∀ s ∈ ["present", "absent", "late", "excused", "medical"],
        s ∈ EdOS.ATTENDANCE_STATUSES) ∧
    ((EdOS.clientSummary [⟨"s1", none⟩]
        ["present", "absent", "late", "excused", "medical"]).present +
      (EdOS.clientSummary [⟨"s1", none⟩]
        ["present", "absent", "late", "excused", "medical"]).absent +
      (EdOS.clientSummary [⟨"s1", none⟩]
        ["present", "absent", "late", "excused", "medical"]).late +
      (EdOS.clientSummary [⟨"s1", none⟩]
        ["present", "absent", "late", "excused", "medical"]).excused = 5 ∧
    (EdOS.clientSummary [⟨"s1", none⟩]
        ["present", "absent", "late", "excused", "medical"]).total = 1) :=
  ⟨by decide, C10_summary_partition [⟨"s1", none⟩]
    ["present", "absent", "late", "excused", "medical"] (by decide)⟩

/-- C5 counterexample: on a marking state holding a single `medical`
record, the client summary counts it under `excused` (count 1), although
no record carries exactly the status `excused`; so a `medical` record is
counted under the count of another status, contrary to the claim. -/
theorem C5_counterexample :
    (EdOS.clientSummary [] ["medical"]).excused = 1 ∧
    ((["medical"] : List String).filter (fun s => s = "excused")).length
      = 0 := by
  decide

/-- C5 amended: the fields of the client summary are `total`, `present`,
`absent`, `late`, `excused` (there is no `percentage` field); `present`,
`absent` and `late` each count the records carrying exactly that status,
while `excused` counts the records whose status is `excused` or
`medical`, and `total` is the number of listed students. -/
theorem C5_amended_summary_counts
    (attendanceData : List EdOS.ClassAttendanceRow) (marking : List String) :
    (EdOS.clientSummary attendanceData marking).total =
      attendanceData.length ∧
    (EdOS.clientSummary attendanceData marking).present =
      marking.count "present" ∧
    (EdOS.clientSummary attendanceData marking).absent =
      marking.count "absent" ∧
    (EdOS.clientSummary attendanceData marking).late =
      marking.count "late" ∧
    (EdOS.clientSummary attendanceData marking).excused =
      marking.count "excused" + marking.count "medical" :=
  ⟨rfl, length_filter_eq_count _ _, length_filter_eq_count _ _,
    length_filter_eq_count _ _, length_filter_excused _⟩

/-! ### API client interceptor -/

/-- C9: the response interceptor refreshes-and-retries a 401-failed
request at most once — the retried request carries `_retry`, and a 401
on a `_retry`-marked request is rejected without another refresh — and
when the refresh itself fails it removes the stored `access_token`,
`refresh_token` and `user` entries and redirects to `/login`. -/
theorem C9_refresh_once_and_cleanup :
    (∀ (storage : EdOS.AuthStorage) (refreshResult : Option String),
        EdOS.responseInterceptor 401 true storage refreshResult =
          (.reject, storage)) ∧
    (∀ (storage : EdOS.AuthStorage) (refreshResult : Option String)
        (b : Bool) (storage' : EdOS.AuthStorage),
        EdOS.responseInterceptor 401 false storage refreshResult =
          (.retryOriginal b, storage') → b = true) ∧
    (∀ (storage : EdOS.AuthStorage) (t : String),
        storage.refresh_token = some t →
        EdOS.responseInterceptor 401 false storage none =
          (.redirectLogin, ⟨none, none, none⟩)) := by
  refine ⟨?_, ?_, ?_⟩
  · intro s r
    simp [EdOS.responseInterceptor]
  · rintro ⟨a, rt, u⟩ r b s' h
    cases rt <;> cases r <;> simp_all [EdOS.responseInterceptor]
  · rintro ⟨a, rt, u⟩ t h
    simp only at h
    subst h
    simp [EdOS.responseInterceptor]

/-- Witness for C9: a stored refresh token plus a failing refresh call
clears the three storage entries and redirects to `/login`. -/
theorem C9_refresh_once_and_cleanup_witness :
    (EdOS.AuthStorage.mk (some "a") (some "r") (some "u")).refresh_token =
      some "r" ∧
    EdOS.responseInterceptor 401 false ⟨some "a", some "r", some "u"⟩ none =
      (.redirectLogin, ⟨none, none, none⟩) :=
  ⟨rfl, C9_refresh_once_and_cleanup.2.2 ⟨some "a", some "r", some "u"⟩ "r" rfl⟩

/-! ### Aggregation read path -/

/-- C7 counterexample: a failing student-attendance fetch in
`fetchChildData` does not propagate — the attached catch replaces it
with the empty response `\x7brecords: [], summary: \x7b\x7d\x7d`. -/
theorem C7_counterexample :
    EdOS.fetchChildAttendance (.error "persistence failure") =
      .ok ⟨[], none⟩ ∧
    EdOS.fetchChildAttendance (.error "persistence failure") ≠
      .error "persistence failure" := by
  exact ⟨rfl, by simp [EdOS.fetchChildAttendance]⟩

/-- C7 amended: the UI aggregation read path catches collaborator
failures instead of propagating them: `fetchChildData` replaces a failed
attendance fetch by `\x7brecords: [], summary: \x7b\x7d\x7d` and a
failed grades fetch by `\x7bsubjects: []\x7d`, and the student portal
`fetchData` replaces a failed grades fetch by `\x7bsubjects: []\x7d`;
successful responses pass through unchanged. -/
theorem C7_amended_catch_with_defaults :
    (∀ e, EdOS.fetchChildAttendance (.error e) = .ok ⟨[], none⟩) ∧
    (∀ e, EdOS.fetchChildGrades (.error e) = .ok ⟨[]⟩) ∧
    (∀ e, EdOS.studentPortalFetchGrades (.error e) = .ok ⟨[]⟩) ∧
    (∀ v, EdOS.fetchChildAttendance (.ok v) = .ok v) ∧
    (∀ v, EdOS.fetchChildGrades (.ok v) = .ok v) ∧
    (∀ v, EdOS.studentPortalFetchGrades (.ok v) = .ok v) :=
  ⟨fun _ => rfl, fun _ => rfl, fun _ => rfl,
   fun _ => rfl, fun _ => rfl, fun _ => rfl⟩

/-! ### Stat displays -/

/-- C6 counterexample: with the attendance percentage absent, the
student-portal attendance cell renders the percent text with value 0 —
that is, the string `0%` — and not a no-data indication. -/
theorem C6_counterexample :
    EdOS.studentPortalAttendanceStat none = .percentText 0 ∧
    EdOS.studentPortalAttendanceStat none ≠ .noData := by
  exact ⟨rfl, by simp [EdOS.studentPortalAttendanceStat]⟩

/-- C6 amended: when the attendance percentage for a student is absent,
the calling UI (`StudentPortalPage`, `ParentChildrenPage`,
`StudentDashboard`) renders it as `0%` through the `|| 0` fallback; none
of the three sites ever renders a distinct no-data indication. -/
theorem C6_amended_zero_fallback :
    EdOS.studentPortalAttendanceStat none = .percentText 0 ∧
    EdOS.parentChildrenAttendanceStat none = .percentText 0 ∧
    EdOS.studentDashboardAttendanceStat none = .percentText 0 ∧
    (∀ p, EdOS.studentPortalAttendanceStat p ≠ .noData) ∧
    (∀ p, EdOS.parentChildrenAttendanceStat p ≠ .noData) ∧
    (∀ p, EdOS.studentDashboardAttendanceStat p ≠ .noData) :=
  ⟨rfl, rfl, rfl,
   fun p => by simp [EdOS.studentPortalAttendanceStat],
   fun p => by simp [EdOS.parentChildrenAttendanceStat],
   fun p => by simp [EdOS.studentDashboardAttendanceStat]⟩

/-! ### Spec-modelled backend theorems -/

/-- C1: whenever the target tenant id differs from the resolved
`school_id` of the acting user, `authorize` denies with
`cross_tenant`, for every role, every Role-Permission Table contents,
every action and resource, and every ownership outcome — the tenant
check decides before any role or permission lookup can matter. -/
theorem C1_cross_tenant_denied (table : EdOS.RolePermissionTable)
    (user : EdOS.ActingUser) (action resourceType resourceTenantId : String)
    (ownershipHolds : Bool) (h : user.school_id ≠ resourceTenantId) :
    EdOS.authorize table user action resourceType resourceTenantId
        ownershipHolds =
      EdOS.Decision.deny EdOS.DenyReason.crossTenant := by
  simp [EdOS.authorize, h]

/-- Witness for C1: the end-to-end scenario of §8 — a teacher of school
S1 requesting an attendance bulk-mark in school S2 is denied
`cross_tenant` even though the table grants teachers that action. -/
theorem C1_cross_tenant_denied_witness :
    (EdOS.ActingUser.mk "t1" "S1" "teacher").school_id ≠ "S2" ∧
    EdOS.authorize [("teacher", "attendance", "bulk")]
        ⟨"t1", "S1", "teacher"⟩ "bulk" "attendance" "S2" true =
      EdOS.Decision.deny EdOS.DenyReason.crossTenant :=
  ⟨by decide,
   C1_cross_tenant_denied [("teacher", "attendance", "bulk")]
     ⟨"t1", "S1", "teacher"⟩ "bulk" "attendance" "S2" true (by decide)⟩

/-- C3: the attendance summary percentage is
`present_count / total_marked_days * 100` rounded to one decimal over
the marked days only: it is 0 without error on an empty record set and
whenever no day in range is marked; 10 marked days with 7 present, 2
absent and 1 late inside a 30-day window yield exactly 70.0 (unmarked
days are not in the denominator); and one present day out of 3 marked
rounds to 33.3. -/
theorem C3_summarize_attendance_percentage :
    (∀ s e, (EdOS.summarizeAttendance [] s e).percentage = 0) ∧
    (∀ (recs : List EdOS.SpecAttendanceRecord) (s e : ℕ),
        (recs.filter (fun r => s ≤ r.day ∧ r.day ≤ e)).length = 0 →
        (EdOS.summarizeAttendance recs s e).percentage = 0) ∧
    (EdOS.summarizeAttendance
        [⟨1, "present"⟩, ⟨2, "present"⟩, ⟨3, "present"⟩, ⟨4, "present"⟩,
         ⟨5, "present"⟩, ⟨6, "present"⟩, ⟨7, "present"⟩, ⟨8, "absent"⟩,
         ⟨9, "absent"⟩, ⟨10, "late"⟩] 1 30).percentage = 70 ∧
    (EdOS.summarizeAttendance
        [⟨1, "present"⟩, ⟨2, "absent"⟩, ⟨3, "absent"⟩] 1 3).percentage =
      333 / 10 := by
  refine ⟨fun s e => rfl, ?_, ?_, ?_⟩
  · intro recs s e h
    have h0 : (recs.filter
        (fun r => decide (s ≤ r.day) && decide (r.day ≤ e))).length = 0 := by
      simpa using h
    simp [EdOS.summarizeAttendance, h0]
  · simp [EdOS.summarizeAttendance]
    norm_num [EdOS.roundTo1, round_eq]
  · simp [EdOS.summarizeAttendance]
    norm_num [EdOS.roundTo1, round_eq]

/-- Witness for C3: a record outside the queried range leaves no marked
day, and the percentage is 0. -/
theorem C3_summarize_attendance_percentage_witness :
    (([⟨5, "present"⟩] : List EdOS.SpecAttendanceRecord).filter
        (fun r => 10 ≤ r.day ∧ r.day ≤ 20)).length = 0 ∧
    (EdOS.summarizeAttendance [⟨5, "present"⟩] 10 20).percentage = 0 :=
  ⟨by decide,
   C3_summarize_attendance_percentage.2.1 [⟨5, "present"⟩] 10 20 (by decide)⟩

/-- C4: `averageGrades` ignores entries with `max_score = 0` entirely
(dropping such an entry never changes the result), returns `none` on an
empty list and whenever every entry is invalid, and on
`[\x7bscore: 8, max: 10, weight: 1\x7d, \x7bscore: 0, max: 0, weight:
1\x7d]` excludes the second entry and returns exactly 80.0. -/
theorem C4_average_grades :
    EdOS.averageGrades [] = none ∧
    (∀ (g : EdOS.GradeEntry) (gs : List EdOS.GradeEntry), g.max_score = 0 →
        EdOS.averageGrades (g :: gs) = EdOS.averageGrades gs) ∧
    EdOS.averageGrades [⟨8, 10, 1⟩, ⟨0, 0, 1⟩] = some 80 ∧
    (∀ gs : List EdOS.GradeEntry, (∀ g ∈ gs, g.max_score = 0) →
        EdOS.averageGrades gs = none) := by
  refine ⟨rfl, ?_, ?_, ?_⟩
  · intro g gs h
    simp [EdOS.averageGrades, List.filter_cons, h]
  · simp [EdOS.averageGrades, List.filter_cons]
    norm_num
  · intro gs h
    simpa [EdOS.averageGrades] using h

/-- Witness for C4: dropping a `max_score = 0` entry leaves the result
unchanged, here collapsing to the no-data value `none`. -/
theorem C4_average_grades_witness :
    (EdOS.GradeEntry.mk 0 0 1).max_score = 0 ∧
    EdOS.averageGrades [⟨0, 0, 1⟩] = EdOS.averageGrades [] :=
  ⟨rfl, C4_average_grades.2.1 ⟨0, 0, 1⟩ [] rfl⟩
